import Mathlib

/-!
Shallow embedding of the response-normalization and CSV-projection core of
the `mcp-api-tester` server (`src/index.js`), together with theorems checking
the natural-language specification against it.

JavaScript values flowing through the normalizer and the CSV projector are
JSON-like (they come from `axios` responses and tool arguments), so they are
modelled by the inductive `Json` below: `null`, booleans, numbers, strings,
arrays and string-keyed objects.  Numbers are modelled as integers: every
number the relevant code paths manipulate (HTTP status, timestamps and their
difference, body payloads in the claims) is integral.
-/

namespace ApiTester

set_option maxRecDepth 100000

/-- JSON-like JavaScript value: null, boolean, number, string, array, object. -/
inductive Json where
  | null : Json
  | bool (b : Bool) : Json
  | num (n : Int) : Json
  | str (s : String) : Json
  | arr (elems : List Json) : Json
  | obj (fields : List (String × Json)) : Json
deriving Repr

/-- JavaScript `Array.prototype.join(sep)` on a list of strings. -/
def jsJoin (sep : String) : List String → String
  | [] => ""
  | [x] => x
  | x :: xs => x ++ sep ++ jsJoin sep xs

mutual

/-- JavaScript `String(value)` conversion for the modelled values:
`null → "null"`, booleans and integers print as usual, strings are unchanged,
an array joins its elements with `,` (with `null` elements rendering empty,
as `Array.prototype.toString` does), and a plain object renders as
`"[object Object]"`. -/
def jsToString : Json → String
  | Json.null => "null"
  | Json.bool b => if b then "true" else "false"
  | Json.num n => toString n
  | Json.str s => s
  | Json.arr xs => jsJoin "," (jsArrStrings xs)
  | Json.obj _ => "[object Object]"

/-- Element strings for `Array.prototype.join(',')`: `null` renders as the
empty string, every other element via `jsToString`. -/
def jsArrStrings : List Json → List String
  | [] => []
  | x :: xs =>
      (match x with
       | Json.null => ""
       | y => jsToString y) :: jsArrStrings xs

end

/-- JavaScript truthiness of a modelled value: `null`, `false`, `0` and `""`
are falsy; every other value (including empty arrays and empty objects) is
truthy. -/
def jsTruthy : Json → Bool
  | Json.null => false
  | Json.bool b => b
  | Json.num n => n != 0
  | Json.str s => s != ""
  | Json.arr _ => true
  | Json.obj _ => true

/-- The entries a value exposes under `typeof v === 'object' && v !== null`:
an object exposes its own fields, an array exposes its elements keyed by the
decimal index string (as `Object.keys` does), and every other value (null,
boolean, number, string) is not object-typed and exposes nothing. -/
def jsObjectEntries : Json → Option (List (String × Json))
  | Json.obj fs => some fs
  | Json.arr xs => some (xs.enum.map fun p => (toString p.1, p.2))
  | _ => none

/-- JavaScript property lookup `o[key]` on an entry list: the first entry with
the key, or `none` (undefined) when absent. -/
def jsGet (fs : List (String × Json)) (key : String) : Option Json :=
  (fs.find? fun p => p.1 == key).map Prod.snd

/-- JavaScript `s.includes(c)` for a single character: the character occurs
in the string. -/
def jsIncludes (s : String) (c : Char) : Bool :=
  s.data.contains c

/-- JavaScript `s.replace(/"/g, '""')`: every double quote doubled. -/
def jsDoubleQuotes (s : String) : String :=
  String.mk (s.data.foldr (fun c acc => if c == '"' then '"' :: '"' :: acc else c :: acc) [])

/-- Embeds `escapeCsvValue` (src/index.js lines 125-137).  The argument is
`none` for JavaScript `undefined`.  `undefined` and `null` map to the empty
string; a string form containing a comma, a newline or a double quote is
wrapped in double quotes with internal double quotes doubled; otherwise the
plain string form is returned (the source's numeric-string branch returns
`stringValue` unchanged, exactly like its final statement, so both collapse
to one branch here). -/
def escapeCsvValue : Option Json → String
  | none => ""
  | some Json.null => ""
  | some v =>
    let stringValue := jsToString v
    if jsIncludes stringValue ',' || jsIncludes stringValue '\n' || jsIncludes stringValue '"' then
      "\"" ++ jsDoubleQuotes stringValue ++ "\""
    else
      stringValue

/-- The canonical result record built by `formatApiResponse` /
`formatErrorResponse`.  `Option` fields model JavaScript properties that a
given shape may leave absent; `method` and `url` are set unconditionally by
both constructors and are therefore plain strings. -/
structure CanonicalResult where
  success : Bool
  method : String
  url : String
  status : Option Json := none
  statusText : Option Json := none
  headers : Option Json := none
  data : Option Json := none
  responseTime : Option Json := none
  error : Option String := none
  code : Option String := none
  requestData : Option Json := none
deriving Repr

/-- Timing metadata attached to the axios request config by the dispatcher
(`config.metadata = { startTime }`, later `metadata.endTime = Date.now()`). -/
structure AxiosMetadata where
  startTime : Option Int := none
  endTime : Option Int := none
deriving Repr

/-- The axios response envelope as consumed by `formatApiResponse`:
status, statusText, headers and data, plus the timing metadata stored on
`response.config` (flattened here to one field). -/
structure AxiosResponse where
  status : Json
  statusText : Json
  headers : Json
  data : Json
  metadata : Option AxiosMetadata := none
deriving Repr

/-- The thrown failure as consumed by `formatErrorResponse`: a message, an
optional transport error-code token, and the partial HTTP response when one
was received before the error was raised. -/
structure JsError where
  message : String
  code : Option String := none
  response : Option AxiosResponse := none
deriving Repr

/-- Embeds the `responseTime` expression of src/index.js line 91:
`response.config.metadata?.endTime - response.config.metadata?.startTime || 'N/A'`.
If the metadata or either timestamp is missing the subtraction yields `NaN`
(falsy), and a zero difference is falsy too, so `'N/A'` results in all those
cases; otherwise the (nonzero) difference. -/
def computeResponseTime (metadata : Option AxiosMetadata) : Json :=
  match metadata with
  | some m =>
    match m.endTime, m.startTime with
    | some e, some s => if e - s = 0 then Json.str "N/A" else Json.num (e - s)
    | _, _ => Json.str "N/A"
  | none => Json.str "N/A"

/-- Embeds `formatApiResponse` (src/index.js lines 82-99). -/
def formatApiResponse (response : AxiosResponse) (method url : String)
    (requestData : Option Json := none) : CanonicalResult :=
  { success := true
    method := method
    url := url
    status := some response.status
    statusText := some response.statusText
    headers := some response.headers
    data := some response.data
    responseTime := some (computeResponseTime response.metadata)
    error := none
    code := none
    requestData :=
      match requestData with
      | some d => if jsTruthy d then some d else none
      | none => none }

/-- Embeds `formatErrorResponse` (src/index.js lines 102-123).
`code` is `error.code || 'UNKNOWN_ERROR'`: the token when truthy (non-empty),
the constant otherwise.  The source conditionally assigns the four response
fields when `error.response` is present and `requestData` when it is truthy;
the conditional assignments are expressed here field by field with
`Option.map` and a match, which builds the same record. -/
def formatErrorResponse (error : JsError) (method url : String)
    (requestData : Option Json := none) : CanonicalResult :=
  { success := false
    method := method
    url := url
    error := some error.message
    code := some (match error.code with
      | some c => if c == "" then "UNKNOWN_ERROR" else c
      | none => "UNKNOWN_ERROR")
    status := error.response.map fun resp => resp.status
    statusText := error.response.map fun resp => resp.statusText
    headers := error.response.map fun resp => resp.headers
    data := error.response.map fun resp => resp.data
    requestData :=
      match requestData with
      | some d => if jsTruthy d then some d else none
      | none => none }

/-- Key accumulation of the `headers` Set in `convertArrayOfObjectsToCsv`:
add each key unless already present, preserving first-seen order (JavaScript
`Set` preserves insertion order). -/
def addKeys (acc : List String) (ks : List String) : List String :=
  ks.foldl (fun a k => if a.contains k then a else a ++ [k]) acc

/-- One step of the header-collecting loop of src/index.js lines 146-150: an
object-typed element contributes its keys, any other element contributes
nothing. -/
def collectHeadersStep (acc : List String) (o : Json) : List String :=
  match jsObjectEntries o with
  | some fs => addKeys acc (fs.map Prod.fst)
  | none => acc

/-- The header union of src/index.js lines 145-150: every object-typed
element contributes its keys, in first-seen order; other elements contribute
nothing. -/
def collectHeaders (data : List Json) : List String :=
  data.foldl collectHeadersStep []

/-- The data rows of src/index.js lines 161-169: one row per object-typed
element, cells looked up per header key and escaped; non-object elements
produce no row. -/
def csvDataRows (headerArray : List String) (data : List Json) : List String :=
  data.filterMap fun o =>
    match jsObjectEntries o with
    | some fs =>
      some (jsJoin "," (headerArray.map fun header => escapeCsvValue (jsGet fs header)))
    | none => none

/-- Embeds `convertArrayOfObjectsToCsv` (src/index.js lines 139-172). -/
def convertArrayOfObjectsToCsv (data : Json) : String :=
  match data with
  | Json.arr [] => ""
  | Json.arr elems =>
    let headerArray := collectHeaders elems
    if headerArray = [] then ""
    else
      jsJoin "\n"
        (jsJoin "," (headerArray.map fun k => escapeCsvValue (some (Json.str k)))
          :: csvDataRows headerArray elems)
  | _ => ""

/-- Embeds `convertObjectToCsv` (src/index.js lines 174-190): header row of
the object's own keys, one data row of the corresponding values; empty string
for a non-object or an empty object. -/
def convertObjectToCsv (data : Json) : String :=
  match jsObjectEntries data with
  | none => ""
  | some fs =>
    if fs.isEmpty then ""
    else
      let headers := fs.map Prod.fst
      jsJoin "\n"
        [jsJoin "," (headers.map fun h => escapeCsvValue (some (Json.str h))),
         jsJoin "," (headers.map fun h => escapeCsvValue (jsGet fs h))]

/-- Rendering of `result.f || 'N/A'` inside a template literal for an
optional field: `'N/A'` when absent or falsy, `String(value)` otherwise. -/
def metaOpt (v : Option Json) : String :=
  match v with
  | some j => if jsTruthy j then jsToString j else "N/A"
  | none => "N/A"

/-- Embeds `generateMetadataRow` (src/index.js lines 192-204). -/
def generateMetadataRow (r : CanonicalResult) : String :=
  let base := ["status:" ++ metaOpt r.status,
               "method:" ++ (if r.method = "" then "N/A" else r.method),
               "url:" ++ (if r.url = "" then "N/A" else r.url),
               "time:" ++ metaOpt r.responseTime ++ "ms"]
  let fields :=
    match r.error with
    | some e => if e ≠ "" then base ++ ["error:" ++ e] else base
    | none => base
  "# " ++ jsJoin "|" fields

/-- Truthiness of `result.error`: present and non-empty. -/
def errTruthy (r : CanonicalResult) : Bool :=
  match r.error with
  | some e => e != ""
  | none => false

/-- The expression `result.code || 'UNKNOWN_ERROR'` of src/index.js line 213. -/
def codeOrUnknown (r : CanonicalResult) : String :=
  match r.code with
  | some c => if c == "" then "UNKNOWN_ERROR" else c
  | none => "UNKNOWN_ERROR"

/-- The error CSV of src/index.js lines 210-214: the metadata comment line,
the header `error,code,message`, and one row of the error text, the code
(defaulted), and the error text again. -/
def errorTableCsv (result : CanonicalResult) : String :=
  jsJoin "\n"
    [generateMetadataRow result,
     "error,code,message",
     escapeCsvValue (result.error.map Json.str) ++ "," ++
       escapeCsvValue (some (Json.str (codeOrUnknown result))) ++ "," ++
       escapeCsvValue (result.error.map Json.str)]

/-- The `csvContent` computed from `result.data` in src/index.js lines
222-235: empty when `data` is absent or falsy, the array projection for an
array, the object projection for an object, and a `value`-headed 2-line
table for a truthy scalar. -/
def dataCsvContent (result : CanonicalResult) : String :=
  match result.data with
  | some d =>
    if jsTruthy d then
      match d with
      | Json.arr xs => convertArrayOfObjectsToCsv (Json.arr xs)
      | Json.obj fs => convertObjectToCsv (Json.obj fs)
      | other => "value\n" ++ escapeCsvValue (some other)
    else ""
  | none => ""

/-- The default table of src/index.js lines 238-241, used when no CSV content
was produced: header `status,method,url` and one row of those three values. -/
def defaultCsvContent (result : CanonicalResult) : String :=
  "status,method,url\n" ++
    escapeCsvValue result.status ++ "," ++
    escapeCsvValue (some (Json.str result.method)) ++ "," ++
    escapeCsvValue (some (Json.str result.url))

/-- The `try` body of `toCsv` (src/index.js lines 207-243), in `Except` so the
`catch` handler can be modelled: a thrown exception would be `Except.error`
with the exception message.  Over the JSON-like value domain none of the body's
operations can throw, so every branch is `Except.ok`. -/
def toCsvBody (result : CanonicalResult) : Except String String :=
  if errTruthy result then
    Except.ok (errorTableCsv result)
  else
    let metadataRow := generateMetadataRow result
    let csvContent := dataCsvContent result
    let csvContent :=
      if csvContent = "" then defaultCsvContent result else csvContent
    Except.ok (metadataRow ++ "\n" ++ csvContent)

/-- The `catch` handler of `toCsv` (src/index.js lines 245-253). -/
def toCsvCatch (result : CanonicalResult) (message : String) : String :=
  jsJoin "\n"
    [generateMetadataRow result,
     "error,code,message",
     "CSV Conversion Error,CONVERSION_ERROR," ++ escapeCsvValue (some (Json.str message))]

/-- Embeds `toCsv` (src/index.js lines 206-254): the `try` body, with any
internal exception degraded to the fallback table by the `catch` handler. -/
def toCsv (result : CanonicalResult) : String :=
  match toCsvBody result with
  | Except.ok s => s
  | Except.error message => toCsvCatch result message

/-- Embeds `validateArgs` (src/index.js lines 73-79).  The argument is `none`
when the invocation carried no `arguments` field (JavaScript `undefined`).
`args || {}` replaces a falsy argument value with an empty object; the
function then throws unless the value is a non-array object.  The Zod schema
parameter of the source is ignored by its body and is therefore not modelled.
`Except.error` carries the thrown message (caught by the dispatcher's outer
handler, which turns it into an error response). -/
def validateArgs (args : Option Json) : Except String Json :=
  let argsToValidate : Json :=
    match args with
    | some a => if jsTruthy a then a else Json.obj []
    | none => Json.obj []
  match argsToValidate with
  | Json.arr _ => Except.error "Invalid arguments: expected object, got object"
  | Json.str _ => Except.error "Invalid arguments: expected object, got string"
  | Json.num _ => Except.error "Invalid arguments: expected object, got number"
  | Json.bool _ => Except.error "Invalid arguments: expected object, got boolean"
  | v => Except.ok v

/-- JavaScript property lookup on an arbitrary value (destructuring of
`validatedArgs`). -/
def objGet (v : Json) (key : String) : Option Json :=
  match jsObjectEntries v with
  | some fs => jsGet fs key
  | none => none

/-- JavaScript `s.toLowerCase()`. -/
def jsToLower (s : String) : String :=
  String.mk (s.data.map Char.toLower)

/-- How far a `CallToolRequestSchema` handler case gets before control either
returns an immediate error response or reaches the `apiClient` network call:
`errorResponse` models every return path that happens without a network call
(a `validateArgs` throw, a host `TypeError`, or the unknown-tool throw, all
caught by the handler's outer `catch`); `networkAttempt` models reaching the
`apiClient.get/post/put/delete/request` call, carrying the HTTP method and
the `url` argument value handed to axios (`none` = `undefined`). -/
inductive DispatchResult where
  | errorResponse (message : String) : DispatchResult
  | networkAttempt (method : String) (url : Option Json) : DispatchResult
deriving Repr

/-- Embeds the control flow of the `CallToolRequestSchema` handler
(src/index.js lines 478-654) of one invocation, up to the point where a
network call is attempted or an error response is returned without one.
Each tool case calls `validateArgs`, destructures the validated arguments
with no presence check of its own, and proceeds straight to the `apiClient`
call; `api_request` first evaluates `method.toLowerCase()`, which throws a
`TypeError` when `method` is not a string (caught by the outer handler). -/
def dispatchStep (name : String) (args : Option Json) : DispatchResult :=
  match name with
  | "api_get" =>
    match validateArgs args with
    | Except.error m => DispatchResult.errorResponse m
    | Except.ok v => DispatchResult.networkAttempt "GET" (objGet v "url")
  | "api_post" =>
    match validateArgs args with
    | Except.error m => DispatchResult.errorResponse m
    | Except.ok v => DispatchResult.networkAttempt "POST" (objGet v "url")
  | "api_put" =>
    match validateArgs args with
    | Except.error m => DispatchResult.errorResponse m
    | Except.ok v => DispatchResult.networkAttempt "PUT" (objGet v "url")
  | "api_delete" =>
    match validateArgs args with
    | Except.error m => DispatchResult.errorResponse m
    | Except.ok v => DispatchResult.networkAttempt "DELETE" (objGet v "url")
  | "api_request" =>
    match validateArgs args with
    | Except.error m => DispatchResult.errorResponse m
    | Except.ok v =>
      match objGet v "method" with
      | some (Json.str s) => DispatchResult.networkAttempt (jsToLower s) (objGet v "url")
      | _ => DispatchResult.errorResponse "TypeError: method.toLowerCase is not a function"
  | other => DispatchResult.errorResponse ("Unknown tool: " ++ other)

/-- A record is success-shaped: the four response fields are present and the
`error`/`code` fields are absent. -/
def successShaped (r : CanonicalResult) : Prop :=
  r.status.isSome = true ∧ r.statusText.isSome = true ∧
  r.headers.isSome = true ∧ r.data.isSome = true ∧
  r.error = none ∧ r.code = none

/-- A record is failure-shaped: the `error` and `code` fields are present. -/
def failureShaped (r : CanonicalResult) : Prop :=
  r.error.isSome = true ∧ r.code.isSome = true

/-- Object-literal test (`typeof x === 'object' && x !== null` and not an
array). -/
def isPlainObject : Json → Bool
  | Json.obj _ => true
  | _ => false

/-- Array test (`Array.isArray`). -/
def isJsArray : Json → Bool
  | Json.arr _ => true
  | _ => false

/-! Helper lemmas shared by the claim theorems. -/

theorem jsJoin_cons_cons (sep a b : String) (l : List String) :
    jsJoin sep (a :: b :: l) = a ++ sep ++ jsJoin sep (b :: l) := rfl

theorem jsJoin_newline_two_ne_empty (a b : String) (l : List String) :
    jsJoin "\n" (a :: b :: l) ≠ "" := by
  intro h
  have hl := congrArg String.length h
  rw [jsJoin_cons_cons] at hl
  rw [String.length_append, String.length_append] at hl
  have hn : ("\n" : String).length = 1 := rfl
  have he : ("" : String).length = 0 := rfl
  omega

theorem append_left_ne_empty (a b : String) (h : a.length ≠ 0) : a ++ b ≠ "" := by
  intro hab
  have hl := congrArg String.length hab
  rw [String.length_append] at hl
  have he : ("" : String).length = 0 := rfl
  omega

theorem jsIncludes_iff_mem (s : String) (c : Char) :
    jsIncludes s c = true ↔ c ∈ s.data := by
  unfold jsIncludes
  exact List.elem_iff

theorem toCsvBody_ok (r : CanonicalResult) : toCsvBody r = Except.ok (toCsv r) := by
  unfold toCsv toCsvBody
  split <;> rfl

theorem escapeCsvValue_some_eq (v : Json) (hv : v ≠ Json.null) :
    escapeCsvValue (some v) =
      (if jsIncludes (jsToString v) ',' || jsIncludes (jsToString v) '\n'
          || jsIncludes (jsToString v) '"' then
        "\"" ++ jsDoubleQuotes (jsToString v) ++ "\""
      else jsToString v) := by
  cases v
  · exact absurd rfl hv
  all_goals rfl

/-- C7: the cell-escaping function maps `undefined` and `null` to the empty
string; a value whose JavaScript string form contains a comma, a line break
or a double quote is wrapped in double quotes with each internal double quote
doubled; every other value renders as its plain string form; and the string
`a,b"c` escapes to the cell `"a,b""c"`. -/
theorem escapeCsvValue_spec :
    escapeCsvValue none = "" ∧
    escapeCsvValue (some Json.null) = "" ∧
    (∀ v : Json, v ≠ Json.null →
      ((',' ∈ (jsToString v).data ∨ '\n' ∈ (jsToString v).data ∨ '"' ∈ (jsToString v).data) →
        escapeCsvValue (some v) = "\"" ++ jsDoubleQuotes (jsToString v) ++ "\"") ∧
      (¬ (',' ∈ (jsToString v).data ∨ '\n' ∈ (jsToString v).data ∨ '"' ∈ (jsToString v).data) →
        escapeCsvValue (some v) = jsToString v)) ∧
    escapeCsvValue (some (Json.str "a,b\"c")) = "\"a,b\"\"c\"" := by
  refine ⟨rfl, rfl, ?_, by decide⟩
  intro v hv
  constructor
  · intro h
    rw [escapeCsvValue_some_eq v hv]
    have hb : (jsIncludes (jsToString v) ',' || jsIncludes (jsToString v) '\n'
        || jsIncludes (jsToString v) '"') = true := by
      rcases h with h | h | h <;> simp [(jsIncludes_iff_mem _ _).2 h]
    rw [if_pos hb]
  · intro h
    rw [escapeCsvValue_some_eq v hv]
    push_neg at h
    have h1 : jsIncludes (jsToString v) ',' = false := by
      rcases hb : jsIncludes (jsToString v) ',' with _ | _
      · rfl
      · exact absurd ((jsIncludes_iff_mem _ _).1 hb) h.1
    have h2 : jsIncludes (jsToString v) '\n' = false := by
      rcases hb : jsIncludes (jsToString v) '\n' with _ | _
      · rfl
      · exact absurd ((jsIncludes_iff_mem _ _).1 hb) h.2.1
    have h3 : jsIncludes (jsToString v) '"' = false := by
      rcases hb : jsIncludes (jsToString v) '"' with _ | _
      · rfl
      · exact absurd ((jsIncludes_iff_mem _ _).1 hb) h.2.2
    rw [if_neg (by simp [h1, h2, h3])]

/-- Witness for C7 at the concrete input `a,b"c`, whose string form contains
a comma: the escaped cell is the quote-wrapped, quote-doubled form. -/
theorem escapeCsvValue_spec_witness :
    escapeCsvValue (some (Json.str "a,b\"c")) =
      "\"" ++ jsDoubleQuotes (jsToString (Json.str "a,b\"c")) ++ "\"" :=
  (escapeCsvValue_spec.2.2.1 (Json.str "a,b\"c") (by simp)).1 (Or.inl (by decide))

/-- C5 (code inspection at the failing input): `validateArgs` never consults
the Zod schema it is handed, so an `api_get` invocation whose arguments lack
the required `url` passes validation unchanged and the dispatcher proceeds to
the `apiClient.get` network call with an `undefined` url instead of returning
an immediate validation error. -/
theorem dispatch_missing_url_reaches_network :
    validateArgs (some (Json.obj [])) = Except.ok (Json.obj []) ∧
    dispatchStep "api_get" (some (Json.obj [])) =
      DispatchResult.networkAttempt "GET" none :=
  ⟨rfl, rfl⟩

/-- C3: `toCsv` never propagates an exception: over the JSON-like record
domain the `try` body always completes, returning exactly the string `toCsv`
yields, and the `catch` handler — given any internal exception message —
produces the 2-line `error,code,message` table carrying the fixed
`CSV Conversion Error` marker, the `CONVERSION_ERROR` code and the
exception's message. -/
theorem toCsv_never_throws (r : CanonicalResult) :
    toCsvBody r = Except.ok (toCsv r) ∧
    (∀ message : String,
      toCsvCatch r message =
        generateMetadataRow r ++ "\n" ++
          ("error,code,message" ++ "\n" ++
            ("CSV Conversion Error,CONVERSION_ERROR," ++
              escapeCsvValue (some (Json.str message))))) := by
  refine ⟨toCsvBody_ok r, ?_⟩
  intro message
  simp [toCsvCatch, jsJoin, String.append_assoc]

theorem toCsv_of_errTruthy_true (r : CanonicalResult) (h : errTruthy r = true) :
    toCsv r = errorTableCsv r := by
  unfold toCsv toCsvBody
  simp [h]

theorem toCsv_of_errTruthy_false (r : CanonicalResult) (h : errTruthy r = false) :
    toCsv r = generateMetadataRow r ++ "\n" ++
      (if dataCsvContent r = "" then defaultCsvContent r else dataCsvContent r) := by
  unfold toCsv toCsvBody
  simp [h]

/-- C4: both normalizer outputs satisfy the shape invariant: a success
record is success-shaped and not failure-shaped; a failure record is
failure-shaped and not success-shaped, carrying the four response fields
exactly when the failure carried an HTTP response; and `method` and `url`
are present in both shapes. -/
theorem canonicalResult_shape_invariant :
    (∀ (resp : AxiosResponse) (method url : String) (rd : Option Json),
      successShaped (formatApiResponse resp method url rd) ∧
      ¬ failureShaped (formatApiResponse resp method url rd) ∧
      (formatApiResponse resp method url rd).method = method ∧
      (formatApiResponse resp method url rd).url = url) ∧
    (∀ (err : JsError) (method url : String) (rd : Option Json),
      failureShaped (formatErrorResponse err method url rd) ∧
      ¬ successShaped (formatErrorResponse err method url rd) ∧
      ((formatErrorResponse err method url rd).status.isSome = true ↔
        err.response.isSome = true) ∧
      ((formatErrorResponse err method url rd).statusText.isSome = true ↔
        err.response.isSome = true) ∧
      ((formatErrorResponse err method url rd).headers.isSome = true ↔
        err.response.isSome = true) ∧
      ((formatErrorResponse err method url rd).data.isSome = true ↔
        err.response.isSome = true) ∧
      (formatErrorResponse err method url rd).method = method ∧
      (formatErrorResponse err method url rd).url = url) := by
  constructor
  · intro resp method url rd
    refine ⟨⟨rfl, rfl, rfl, rfl, rfl, rfl⟩, ?_, rfl, rfl⟩
    intro hfail
    exact Option.noConfusion (Option.isSome_iff_exists.1 hfail.1).choose_spec
  · intro err method url rd
    refine ⟨⟨rfl, rfl⟩, ?_, ?_, ?_, ?_, ?_, rfl, rfl⟩
    · intro hsucc
      exact Option.noConfusion hsucc.2.2.2.2.1
    all_goals simp [formatErrorResponse]

/-- C6 counterexample: with both timestamps present and equal (a call whose
measured elapsed time is 0 ms), the `|| 'N/A'` of line 91 sees the falsy
number 0 and `responseTime` becomes the `"N/A"` sentinel — not the integer
difference, contradicting the claim that the sentinel is used only when a
timestamp is missing. -/
theorem formatApiResponse_zero_elapsed_counterexample :
    (formatApiResponse
      { status := Json.num 200, statusText := Json.str "OK",
        headers := Json.obj [], data := Json.str "ok",
        metadata := some { startTime := some 5, endTime := some 5 } }
      "GET" "http://example.com" none).responseTime = some (Json.str "N/A") ∧
    (formatApiResponse
      { status := Json.num 200, statusText := Json.str "OK",
        headers := Json.obj [], data := Json.str "ok",
        metadata := some { startTime := some 5, endTime := some 5 } }
      "GET" "http://example.com" none).responseTime ≠ some (Json.num (5 - 5)) := by
  refine ⟨rfl, ?_⟩
  intro h
  exact Json.noConfusion (Option.some.inj h)

/-- C6 amended: `formatApiResponse` sets `success=true`, copies
status/statusText/headers/data verbatim and produces no `error`/`code`;
`responseTime` is the integer difference `endTime - startTime` when both
timestamps are present and the difference is nonzero, and the `"N/A"`
sentinel when the metadata or either timestamp is missing — or when the
difference is 0, which the source's `|| 'N/A'` treats as falsy. -/
theorem formatApiResponse_spec_amended (resp : AxiosResponse) (method url : String)
    (rd : Option Json) :
    (formatApiResponse resp method url rd).success = true ∧
    (formatApiResponse resp method url rd).method = method ∧
    (formatApiResponse resp method url rd).url = url ∧
    (formatApiResponse resp method url rd).status = some resp.status ∧
    (formatApiResponse resp method url rd).statusText = some resp.statusText ∧
    (formatApiResponse resp method url rd).headers = some resp.headers ∧
    (formatApiResponse resp method url rd).data = some resp.data ∧
    (formatApiResponse resp method url rd).error = none ∧
    (formatApiResponse resp method url rd).code = none ∧
    (∀ (m : AxiosMetadata) (s e : Int),
      resp.metadata = some m → m.startTime = some s → m.endTime = some e →
      (e - s ≠ 0 →
        (formatApiResponse resp method url rd).responseTime = some (Json.num (e - s))) ∧
      (e - s = 0 →
        (formatApiResponse resp method url rd).responseTime = some (Json.str "N/A"))) ∧
    ((resp.metadata = none ∨
      (∃ m, resp.metadata = some m ∧ (m.startTime = none ∨ m.endTime = none))) →
      (formatApiResponse resp method url rd).responseTime = some (Json.str "N/A")) := by
  refine ⟨rfl, rfl, rfl, rfl, rfl, rfl, rfl, rfl, rfl, ?_, ?_⟩
  · intro m s e hm hs he
    constructor <;> intro hd <;>
      simp [formatApiResponse, computeResponseTime, hm, hs, he, hd]
  · rintro (hm | ⟨m, hm, hcase⟩)
    · simp [formatApiResponse, computeResponseTime, hm]
    · rcases hcase with h | h
      · cases hme : m.endTime <;>
          simp [formatApiResponse, computeResponseTime, hm, h, hme]
      · simp [formatApiResponse, computeResponseTime, hm, h]

/-- Witness for C6 at a concrete response whose timestamps are 5 and 12:
`responseTime` is the integer difference 7. -/
theorem formatApiResponse_spec_amended_witness :
    (formatApiResponse
      { status := Json.num 200, statusText := Json.str "OK",
        headers := Json.obj [], data := Json.str "ok",
        metadata := some { startTime := some 5, endTime := some 12 } }
      "GET" "http://example.com" none).responseTime = some (Json.num (12 - 5)) :=
  ((formatApiResponse_spec_amended
      { status := Json.num 200, statusText := Json.str "OK",
        headers := Json.obj [], data := Json.str "ok",
        metadata := some { startTime := some 5, endTime := some 12 } }
      "GET" "http://example.com" none).2.2.2.2.2.2.2.2.2.1
    { startTime := some 5, endTime := some 12 } 5 12 rfl rfl rfl).1 (by decide)

/-- C8 counterexample: a failure whose message is the empty string yields
`error = ""` — the `error` field equals the message but is empty, so the
claim's "non-empty `error`" fails (the code copies the message verbatim with
no non-emptiness guarantee). -/
theorem formatErrorResponse_empty_message_counterexample :
    (formatErrorResponse { message := "" } "GET" "http://example.com" none).success = false ∧
    (formatErrorResponse { message := "" } "GET" "http://example.com" none).error = some "" :=
  ⟨rfl, rfl⟩

/-- C8 amended: `formatErrorResponse` sets `success=false`, `error` equal to
the failure's message text (which may be empty), and `code` non-empty: the
failure's code token when that token is non-empty, and the fixed
`UNKNOWN_ERROR` constant when the token is absent or empty; when the failure
carried a partial HTTP response, its status/statusText/headers/data are
copied into the record. -/
theorem formatErrorResponse_spec_amended (err : JsError) (method url : String)
    (rd : Option Json) :
    (formatErrorResponse err method url rd).success = false ∧
    (formatErrorResponse err method url rd).error = some err.message ∧
    (∀ c, err.code = some c → c ≠ "" →
      (formatErrorResponse err method url rd).code = some c) ∧
    ((err.code = none ∨ err.code = some "") →
      (formatErrorResponse err method url rd).code = some "UNKNOWN_ERROR") ∧
    (∃ c, (formatErrorResponse err method url rd).code = some c ∧ c ≠ "") ∧
    (∀ resp, err.response = some resp →
      (formatErrorResponse err method url rd).status = some resp.status ∧
      (formatErrorResponse err method url rd).statusText = some resp.statusText ∧
      (formatErrorResponse err method url rd).headers = some resp.headers ∧
      (formatErrorResponse err method url rd).data = some resp.data) := by
  refine ⟨rfl, rfl, ?_, ?_, ?_, ?_⟩
  · intro c hc hne
    simp [formatErrorResponse, hc, hne]
  · rintro (h | h) <;> simp [formatErrorResponse, h]
  · rcases hc : err.code with _ | c
    · exact ⟨"UNKNOWN_ERROR", by simp [formatErrorResponse, hc], by simp⟩
    · by_cases hce : c = ""
      · exact ⟨"UNKNOWN_ERROR", by simp [formatErrorResponse, hc, hce], by simp⟩
      · exact ⟨c, by simp [formatErrorResponse, hc, hce], hce⟩
  · intro resp hresp
    simp [formatErrorResponse, hresp]

/-- Witness for C8 at a concrete transport failure carrying the code token
`ECONNREFUSED`: the record keeps that token. -/
theorem formatErrorResponse_spec_amended_witness :
    (formatErrorResponse
      { message := "connect ECONNREFUSED 127.0.0.1:80", code := some "ECONNREFUSED" }
      "GET" "http://example.com" none).code = some "ECONNREFUSED" :=
  (formatErrorResponse_spec_amended
      { message := "connect ECONNREFUSED 127.0.0.1:80", code := some "ECONNREFUSED" }
      "GET" "http://example.com" none).2.2.1 "ECONNREFUSED" rfl (by decide)

/-- C9 counterexample: the scalar 0 is falsy, so `if (result.data)` skips the
scalar projection for a success result with `data = 0` and `toCsv` emits the
`status,method,url` default table instead of the claimed `value` table. -/
theorem toCsv_scalar_zero_counterexample :
    toCsv { success := true, method := "GET", url := "http://x",
            status := some (Json.num 200), statusText := some (Json.str "OK"),
            headers := some (Json.obj []), data := some (Json.num 0),
            responseTime := some (Json.num 5) } =
      "# status:200|method:GET|url:http://x|time:5ms\nstatus,method,url\n200,GET,http://x" ∧
    toCsv { success := true, method := "GET", url := "http://x",
            status := some (Json.num 200), statusText := some (Json.str "OK"),
            headers := some (Json.obj []), data := some (Json.num 0),
            responseTime := some (Json.num 5) } ≠
      generateMetadataRow
          { success := true, method := "GET", url := "http://x",
            status := some (Json.num 200), statusText := some (Json.str "OK"),
            headers := some (Json.obj []), data := some (Json.num 0),
            responseTime := some (Json.num 5) } ++ "\n" ++
        ("value\n" ++ escapeCsvValue (some (Json.num 0))) :=
  ⟨by decide, by decide⟩

/-- C9 amended: for a result without a truthy `error`, a *truthy* scalar
`data` (a non-empty string or a nonzero number) projects to the 2-line
`value` table; and when no table content is produced — `data` absent, falsy
(including the scalars `""` and `0`), an empty array or an empty object —
`toCsv` falls back to the `status,method,url` table with one row of those
three values. -/
theorem toCsv_scalar_and_fallback_amended (r : CanonicalResult)
    (herr : errTruthy r = false) :
    (∀ s : String, r.data = some (Json.str s) → s ≠ "" →
      toCsv r = generateMetadataRow r ++ "\n" ++
        ("value\n" ++ escapeCsvValue (some (Json.str s)))) ∧
    (∀ n : Int, r.data = some (Json.num n) → n ≠ 0 →
      toCsv r = generateMetadataRow r ++ "\n" ++
        ("value\n" ++ escapeCsvValue (some (Json.num n)))) ∧
    ((r.data = none ∨ (∃ d, r.data = some d ∧ jsTruthy d = false) ∨
      r.data = some (Json.arr []) ∨ r.data = some (Json.obj [])) →
      toCsv r = generateMetadataRow r ++ "\n" ++ defaultCsvContent r) := by
  refine ⟨?_, ?_, ?_⟩
  · intro s hd hs
    rw [toCsv_of_errTruthy_false r herr]
    have hdc : dataCsvContent r = "value\n" ++ escapeCsvValue (some (Json.str s)) := by
      simp [dataCsvContent, hd, jsTruthy, hs]
    rw [hdc, if_neg (append_left_ne_empty _ _ (by decide))]
  · intro n hd hn
    rw [toCsv_of_errTruthy_false r herr]
    have hdc : dataCsvContent r = "value\n" ++ escapeCsvValue (some (Json.num n)) := by
      simp [dataCsvContent, hd, jsTruthy, hn]
    rw [hdc, if_neg (append_left_ne_empty _ _ (by decide))]
  · intro hcase
    rw [toCsv_of_errTruthy_false r herr]
    have hdc : dataCsvContent r = "" := by
      rcases hcase with hd | ⟨d, hd, hdf⟩ | hd | hd
      · simp [dataCsvContent, hd]
      · simp [dataCsvContent, hd, hdf]
      · simp [dataCsvContent, hd, jsTruthy, convertArrayOfObjectsToCsv]
      · simp [dataCsvContent, hd, jsTruthy, convertObjectToCsv, jsObjectEntries]
    rw [hdc, if_pos rfl]

/-- Witness for C9 at a concrete success result with the scalar string
`hello`: the `value` table is emitted. -/
theorem toCsv_scalar_and_fallback_amended_witness :
    toCsv { success := true, method := "GET", url := "http://x",
            status := some (Json.num 200), statusText := some (Json.str "OK"),
            headers := some (Json.obj []), data := some (Json.str "hello"),
            responseTime := some (Json.num 5) } =
      generateMetadataRow
          { success := true, method := "GET", url := "http://x",
            status := some (Json.num 200), statusText := some (Json.str "OK"),
            headers := some (Json.obj []), data := some (Json.str "hello"),
            responseTime := some (Json.num 5) } ++ "\n" ++
        ("value\n" ++ escapeCsvValue (some (Json.str "hello"))) :=
  (toCsv_scalar_and_fallback_amended
    { success := true, method := "GET", url := "http://x",
      status := some (Json.num 200), statusText := some (Json.str "OK"),
      headers := some (Json.obj []), data := some (Json.str "hello"),
      responseTime := some (Json.num 5) } rfl).1 "hello" rfl (by decide)

/-- C1 counterexample: a failure-shaped result that *does* carry usable body
data (an HTTP 404 whose body is a non-empty array of objects) still gets the
2-line `error,code,message` table — `toCsv` branches on `result.error` alone
and never inspects `data`, contradicting the claimed "instead inspects
`data`" behaviour. -/
theorem toCsv_failure_with_data_counterexample :
    toCsv { success := false, method := "GET", url := "http://x",
            status := some (Json.num 404), statusText := some (Json.str "Not Found"),
            headers := some (Json.obj []),
            data := some (Json.arr [Json.obj [("x", Json.num 1)]]),
            error := some "Request failed with status code 404",
            code := some "ERR_BAD_REQUEST" } =
      "# status:404|method:GET|url:http://x|time:N/Ams|error:Request failed with status code 404\nerror,code,message\nRequest failed with status code 404,ERR_BAD_REQUEST,Request failed with status code 404" ∧
    toCsv { success := false, method := "GET", url := "http://x",
            status := some (Json.num 404), statusText := some (Json.str "Not Found"),
            headers := some (Json.obj []),
            data := some (Json.arr [Json.obj [("x", Json.num 1)]]),
            error := some "Request failed with status code 404",
            code := some "ERR_BAD_REQUEST" } ≠
      generateMetadataRow
          { success := false, method := "GET", url := "http://x",
            status := some (Json.num 404), statusText := some (Json.str "Not Found"),
            headers := some (Json.obj []),
            data := some (Json.arr [Json.obj [("x", Json.num 1)]]),
            error := some "Request failed with status code 404",
            code := some "ERR_BAD_REQUEST" } ++ "\n" ++
        convertArrayOfObjectsToCsv (Json.arr [Json.obj [("x", Json.num 1)]]) :=
  ⟨by decide, by decide⟩

/-- C1 amended: the 2-line `error,code,message` table (one data row of the
error text, the defaulted code, and the error text again) is emitted exactly
when the result's `error` field is present and non-empty — regardless of
whether the result carries body data; `data` is inspected only when `error`
is absent or empty. -/
theorem toCsv_error_table_iff_truthy_error (r : CanonicalResult) :
    (errTruthy r = true →
      toCsv r = jsJoin "\n"
        [generateMetadataRow r,
         "error,code,message",
         escapeCsvValue (r.error.map Json.str) ++ "," ++
           escapeCsvValue (some (Json.str (codeOrUnknown r))) ++ "," ++
           escapeCsvValue (r.error.map Json.str)]) ∧
    (errTruthy r = false →
      toCsv r = generateMetadataRow r ++ "\n" ++
        (if dataCsvContent r = "" then defaultCsvContent r else dataCsvContent r)) :=
  ⟨fun h => toCsv_of_errTruthy_true r h, fun h => toCsv_of_errTruthy_false r h⟩

/-- Witness for C1 at the counterexample's failure record: the error table is
produced even though body data is present. -/
theorem toCsv_error_table_iff_truthy_error_witness :
    toCsv { success := false, method := "GET", url := "http://x",
            status := some (Json.num 404), statusText := some (Json.str "Not Found"),
            headers := some (Json.obj []),
            data := some (Json.arr [Json.obj [("x", Json.num 1)]]),
            error := some "Request failed with status code 404",
            code := some "ERR_BAD_REQUEST" } = jsJoin "\n"
      [generateMetadataRow
          { success := false, method := "GET", url := "http://x",
            status := some (Json.num 404), statusText := some (Json.str "Not Found"),
            headers := some (Json.obj []),
            data := some (Json.arr [Json.obj [("x", Json.num 1)]]),
            error := some "Request failed with status code 404",
            code := some "ERR_BAD_REQUEST" },
       "error,code,message",
       "Request failed with status code 404,ERR_BAD_REQUEST,Request failed with status code 404"] :=
  ((toCsv_error_table_iff_truthy_error
    { success := false, method := "GET", url := "http://x",
      status := some (Json.num 404), statusText := some (Json.str "Not Found"),
      headers := some (Json.obj []),
      data := some (Json.arr [Json.obj [("x", Json.num 1)]]),
      error := some "Request failed with status code 404",
      code := some "ERR_BAD_REQUEST" }).1 rfl).trans (by decide)

theorem csvDataRows_map_obj (H : List String) (objs : List (List (String × Json))) :
    csvDataRows H (objs.map Json.obj) =
      objs.map fun fs => jsJoin "," (H.map fun h => escapeCsvValue (jsGet fs h)) := by
  induction objs with
  | nil => rfl
  | cons fs rest ih =>
    simp only [csvDataRows] at ih ⊢
    simp only [List.map_cons, List.filterMap_cons]
    exact congrArg (List.cons _) ih

/-- C2: for a success-shaped result whose `data` is a non-empty array of
objects (with at least one key among them), `toCsv` emits the metadata line,
then a header row of the union of all keys across all elements in first-seen
order, then one data row per element whose cells are the element's values
looked up per header key (`escapeCsvValue` renders an absent key as the
empty cell). -/
theorem toCsv_array_of_objects_projection (r : CanonicalResult)
    (objs : List (List (String × Json)))
    (herr : errTruthy r = false)
    (hdata : r.data = some (Json.arr (objs.map Json.obj)))
    (hne : objs ≠ [])
    (hh : collectHeaders (objs.map Json.obj) ≠ []) :
    toCsv r = generateMetadataRow r ++ "\n" ++
      jsJoin "\n"
        (jsJoin "," ((collectHeaders (objs.map Json.obj)).map fun k =>
            escapeCsvValue (some (Json.str k)))
          :: objs.map fun fs =>
               jsJoin "," ((collectHeaders (objs.map Json.obj)).map fun h =>
                 escapeCsvValue (jsGet fs h))) := by
  rcases objs with _ | ⟨fs0, rest⟩
  · exact absurd rfl hne
  rw [toCsv_of_errTruthy_false r herr]
  have hdc : dataCsvContent r =
      convertArrayOfObjectsToCsv (Json.arr ((fs0 :: rest).map Json.obj)) := by
    simp [dataCsvContent, hdata, jsTruthy]
  have hconv : convertArrayOfObjectsToCsv (Json.arr ((fs0 :: rest).map Json.obj)) =
      jsJoin "\n"
        (jsJoin "," ((collectHeaders ((fs0 :: rest).map Json.obj)).map fun k =>
            escapeCsvValue (some (Json.str k)))
          :: csvDataRows (collectHeaders ((fs0 :: rest).map Json.obj))
               ((fs0 :: rest).map Json.obj)) := by
    simp only [List.map_cons]
    simp only [convertArrayOfObjectsToCsv]
    rw [if_neg ?hne0]
    case hne0 =>
      simpa using hh
  rw [hdc, hconv, csvDataRows_map_obj]
  rw [if_neg ?hne1]
  case hne1 =>
    simp only [List.map_cons]
    exact jsJoin_newline_two_ne_empty _ _ _

/-- Witness for C2 at the spec's own example `data = [{"x":1},{"y":2}]`:
header `x,y` (union, first-seen order) and the two rows `1,` and `,2`. -/
theorem toCsv_array_of_objects_projection_witness :
    toCsv { success := true, method := "GET", url := "http://x",
            status := some (Json.num 200), statusText := some (Json.str "OK"),
            headers := some (Json.obj []),
            data := some (Json.arr [Json.obj [("x", Json.num 1)],
                                    Json.obj [("y", Json.num 2)]]),
            responseTime := some (Json.num 5) } =
      "# status:200|method:GET|url:http://x|time:5ms\nx,y\n1,\n,2" :=
  (toCsv_array_of_objects_projection
    { success := true, method := "GET", url := "http://x",
      status := some (Json.num 200), statusText := some (Json.str "OK"),
      headers := some (Json.obj []),
      data := some (Json.arr [Json.obj [("x", Json.num 1)],
                              Json.obj [("y", Json.num 2)]]),
      responseTime := some (Json.num 5) }
    [[("x", Json.num 1)], [("y", Json.num 2)]]
    rfl rfl (List.cons_ne_nil _ _) (by decide)).trans (by decide)

theorem csvDataRows_length_no_arr (H : List String) :
    ∀ xs : List Json, (∀ x ∈ xs, isJsArray x = false) →
      (csvDataRows H xs).length = xs.countP isPlainObject := by
  intro xs
  induction xs with
  | nil => intro _; rfl
  | cons x rest ih =>
    intro hx
    have hxr : ∀ y ∈ rest, isJsArray y = false :=
      fun y hy => hx y (List.mem_cons_of_mem _ hy)
    have hx0 := hx x (List.mem_cons_self x rest)
    cases x <;>
      simp_all [csvDataRows, List.filterMap_cons, jsObjectEntries, isPlainObject,
        isJsArray, List.countP_cons]

theorem collectHeaders_foldl_no_arr :
    ∀ (xs : List Json) (acc : List String), (∀ x ∈ xs, isJsArray x = false) →
      xs.foldl collectHeadersStep acc =
        (xs.filter isPlainObject).foldl collectHeadersStep acc := by
  intro xs
  induction xs with
  | nil => intro acc _; rfl
  | cons x rest ih =>
    intro acc hx
    have hxr : ∀ y ∈ rest, isJsArray y = false :=
      fun y hy => hx y (List.mem_cons_of_mem _ hy)
    have hx0 := hx x (List.mem_cons_self x rest)
    cases x <;>
      simp_all [List.foldl_cons, List.filter_cons, collectHeadersStep,
        jsObjectEntries, isPlainObject, isJsArray]

/-- C10: in the array projection, when the array mixes objects with
non-object elements (null, numbers, strings — not nested arrays, which the
source's `typeof` test treats as objects), the non-object elements produce
no data row (the row count is the number of object elements) and contribute
no keys to the header union (the union over the array equals the union over
its object elements alone); when no object contributes a key the projection
is the empty string and `toCsv` emits the `status,method,url` default
table. -/
theorem convertArrayOfObjectsToCsv_mixed_elements (xs : List Json)
    (hx : ∀ x ∈ xs, isJsArray x = false) :
    (∀ H : List String, (csvDataRows H xs).length = xs.countP isPlainObject) ∧
    collectHeaders xs = collectHeaders (xs.filter isPlainObject) ∧
    (collectHeaders xs = [] → convertArrayOfObjectsToCsv (Json.arr xs) = "") ∧
    (∀ r : CanonicalResult, errTruthy r = false → r.data = some (Json.arr xs) →
      collectHeaders xs = [] →
      toCsv r = generateMetadataRow r ++ "\n" ++ defaultCsvContent r) := by
  refine ⟨fun H => csvDataRows_length_no_arr H xs hx,
    collectHeaders_foldl_no_arr xs [] hx, ?_, ?_⟩
  · intro h
    cases xs with
    | nil => rfl
    | cons x rest => simp [convertArrayOfObjectsToCsv, h]
  · intro r herr hdata h
    rw [toCsv_of_errTruthy_false r herr]
    have hconv : convertArrayOfObjectsToCsv (Json.arr xs) = "" := by
      cases xs with
      | nil => rfl
      | cons x rest => simp [convertArrayOfObjectsToCsv, h]
    have hdc : dataCsvContent r = "" := by
      simp [dataCsvContent, hdata, jsTruthy, hconv]
    rw [hdc, if_pos rfl]

/-- Witness for C10 at the concrete mixed array
`[null, {"a":1}, 5, "s"]`: exactly one data row is produced (one object
element), strictly fewer rows than the array's four elements. -/
theorem convertArrayOfObjectsToCsv_mixed_elements_witness :
    (csvDataRows
        (collectHeaders [Json.null, Json.obj [("a", Json.num 1)], Json.num 5, Json.str "s"])
        [Json.null, Json.obj [("a", Json.num 1)], Json.num 5, Json.str "s"]).length =
      ([Json.null, Json.obj [("a", Json.num 1)], Json.num 5, Json.str "s"].countP
        isPlainObject) ∧
    ([Json.null, Json.obj [("a", Json.num 1)], Json.num 5, Json.str "s"].countP
        isPlainObject) <
      [Json.null, Json.obj [("a", Json.num 1)], Json.num 5, Json.str "s"].length :=
  ⟨(convertArrayOfObjectsToCsv_mixed_elements
      [Json.null, Json.obj [("a", Json.num 1)], Json.num 5, Json.str "s"]
      (by decide)).1
    (collectHeaders [Json.null, Json.obj [("a", Json.num 1)], Json.num 5, Json.str "s"]),
   by decide⟩

end ApiTester
